import Mathlib

/-!
Shallow embedding of the `yolo-ex` command-line tool (a wrapper around an
external model-export library plus a local platform/package checker).

Python modules embedded here:
- `yolo_ex/platforms.py`   : platform detection and format preflight
- `yolo_ex/models.py`      : `ExportFormat`, `ExportRequest`, `ExportResult`
- `yolo_ex/errors.py`      : validation vs. execution errors
- `yolo_ex/exporter.py`    : `validate_request`, `build_export_kwargs`, `export_model`
- `yolo_ex/platform_check.py` : `check_current_platform`, `render_platform_report`
- `yolo_ex/cli.py` / `yolo_ex/platform_cli.py` : exit-code logic of the two CLIs

Modelling conventions:
- A filesystem path is a record of the observations the code makes of it
  (existence, suffix, stem, its `str()` form).
- The process environment (importable modules, installed distribution
  versions, the external `packaging.version` comparison) is a record of
  functions, `PyEnv`.
- The external Ultralytics backend (`YOLO(path).export(...)`) is an abstract
  function argument; raising an exception is modelled as `Except.error` with
  the exception text.
- Python `float` values are modelled as rationals: the code only compares
  them with `<= 0` and serializes them, never does float arithmetic.
- Exceptions become `Except`; `ExportValidationError` / `ExportExecutionError`
  become the two constructors of `ExportErr`.
-/

/-- Supported export formats (`yolo_ex/models.py`, `ExportFormat`). -/
inductive ExportFormat where
  | COREML
  | ENGINE
deriving DecidableEq, Repr

/-- The `.value` of the Python `str`-enum member. -/
def ExportFormat.value : ExportFormat → String
  | .COREML => "coreml"
  | .ENGINE => "engine"

/-- Supported runtime platform buckets (`yolo_ex/platforms.py`, `PlatformTarget`). -/
inductive PlatformTarget where
  | MACOS
  | LINUX_ARM64
  | OTHER
deriving DecidableEq, Repr

/-- The `.value` of the Python `str`-enum member. -/
def PlatformTarget.value : PlatformTarget → String
  | .MACOS => "macos"
  | .LINUX_ARM64 => "linux_arm64"
  | .OTHER => "other"

/-- A filesystem path as observed by the code: whether `Path.exists()` holds,
the `Path.suffix` (with its leading dot), the `Path.stem`, and `str(path)`. -/
structure PyPath where
  pathExists : Bool
  suffix : String
  stem : String
  asStr : String
deriving DecidableEq, Repr

/-- Normalized export request (`yolo_ex/models.py`, `ExportRequest`).
`workspace` is a Python `float`, modelled as a rational. -/
structure ExportRequest where
  model_path : PyPath
  format : ExportFormat
  output_dir : Option PyPath := none
  imgsz : Int := 640
  device : Option String := none
  half : Bool := false
  int8 : Bool := false
  batch : Option Int := none
  workspace : Option ℚ := none
  nms : Bool := false
  verbose : Bool := false
  dry_run : Bool := false
deriving DecidableEq, Repr

/-- Export execution result (`yolo_ex/models.py`, `ExportResult`).
`details` is the Python `dict[str, str]` in insertion order;
`output_path` keeps the string form of the path. -/
structure ExportResult where
  format : ExportFormat
  input_model : PyPath
  output_path : Option String
  backend : String
  details : List (String × String)
deriving DecidableEq, Repr

/-- The two application exception classes of `yolo_ex/errors.py` that the
CLIs catch, each carrying the exception message. -/
inductive ExportErr where
  | validation (msg : String)
  | execution (msg : String)
deriving DecidableEq, Repr

/-- Python `str.lower()` for the ASCII strings this tool compares
(`platform.system()`/`platform.machine()` values and path suffixes). -/
def pyLower (s : String) : String := String.mk (s.data.map Char.toLower)

/-- `detect_platform` (`yolo_ex/platforms.py`): in the source the two strings
come from `platform.system()` / `platform.machine()`; here they are passed in. -/
def detect_platform (system machine : String) : PlatformTarget :=
  let s := pyLower system
  let m := pyLower machine
  if s = "darwin" then .MACOS
  else if s = "linux" ∧ (m = "aarch64" ∨ m = "arm64") then .LINUX_ARM64
  else .OTHER

/-- A value of the Python `dict[str, Any]` export-kwargs map. -/
inductive KwVal where
  | int (n : Int)
  | bool (b : Bool)
  | str (s : String)
  | float (q : ℚ)
deriving DecidableEq, Repr

/-- `validate_request` (`yolo_ex/exporter.py`): the message of the
`ExportValidationError` raised, or `.ok` when every check passes. -/
def validate_request (r : ExportRequest) : Except String Unit :=
  if !r.model_path.pathExists then
    .error ("Model file not found: " ++ r.model_path.asStr)
  else if pyLower r.model_path.suffix != ".pt" then
    .error "Input model must use the .pt extension."
  else if r.imgsz ≤ 0 then
    .error "--imgsz must be greater than zero."
  else if (match r.batch with | some b => decide (b ≤ 0) | none => false) then
    .error "--batch must be greater than zero."
  else if (match r.workspace with | some w => decide (w ≤ 0) | none => false) then
    .error "--workspace must be greater than zero."
  else if r.format = .COREML ∧ r.workspace.isSome then
    .error "--workspace is only valid with --format engine."
  else
    .ok ()

/-- `build_export_kwargs` (`yolo_ex/exporter.py`): the kwargs dict in
insertion order. -/
def build_export_kwargs (r : ExportRequest) : List (String × KwVal) :=
  let kwargs : List (String × KwVal) :=
    [("imgsz", .int r.imgsz), ("half", .bool r.half),
     ("int8", .bool r.int8), ("nms", .bool r.nms)]
  let kwargs := kwargs ++
    (match r.output_dir with
     | some d => [("project", .str d.asStr), ("name", .str r.model_path.stem)]
     | none => [])
  let kwargs := kwargs ++
    (match r.format with
     | .ENGINE =>
        (match r.device with | some d => [("device", .str d)] | none => []) ++
        (match r.batch with | some b => [("batch", .int b)] | none => []) ++
        (match r.workspace with | some w => [("workspace", .float w)] | none => [])
     | .COREML => [])
  kwargs

/-- Insert a key/value pair into a key-sorted list (helper for the
`sort_keys=True` behaviour of `json.dumps`). -/
def insertByKey (p : String × KwVal) : List (String × KwVal) → List (String × KwVal)
  | [] => [p]
  | q :: rest => if q.1 < p.1 then q :: insertByKey p rest else p :: q :: rest

/-- Sort a kwargs list by key (the `sort_keys=True` of `json.dumps`). -/
def sortByKey (l : List (String × KwVal)) : List (String × KwVal) :=
  l.foldr insertByKey []

/-- Escape one character as inside a JSON string literal (the escapes needed
for the strings this tool serializes). -/
def jsonEscapeChar (c : Char) : String :=
  if c = '"' then "\\\""
  else if c = '\\' then "\\\\"
  else if c = '\n' then "\\n"
  else if c = '\t' then "\\t"
  else if c = '\r' then "\\r"
  else String.singleton c

/-- Escape a string as inside a JSON string literal. -/
def jsonEscapeString (s : String) : String :=
  s.foldl (fun acc c => acc ++ jsonEscapeChar c) ""

/-- Render a rational that stands for a Python float the way `json.dumps`
renders the float: integral values as `n.0`, otherwise as a finite decimal
when the reduced denominator divides a power of ten (the case for every
value the CLI can produce), with a fraction fallback. -/
def renderFloat (q : ℚ) : String :=
  let sign := if q.num < 0 then "-" else ""
  let n := q.num.natAbs
  let d := q.den
  if d = 1 then sign ++ toString n ++ ".0"
  else
    match (List.range 18).find? (fun k => d ∣ 10 ^ (k + 1)) with
    | some k =>
        let m := k + 1
        let scaled := n * (10 ^ m) / d
        let intPart := scaled / 10 ^ m
        let fracPart := scaled % 10 ^ m
        let fracStr := toString fracPart
        let pad := String.mk (List.replicate (m - fracStr.length) '0')
        sign ++ toString intPart ++ "." ++ pad ++ fracStr
    | none => sign ++ toString n ++ "/" ++ toString d

/-- Render one kwargs value as JSON. -/
def KwVal.jsonRender : KwVal → String
  | .int n => toString n
  | .bool b => if b then "true" else "false"
  | .str s => "\"" ++ jsonEscapeString s ++ "\""
  | .float q => renderFloat q

/-- Model of `json.dumps(kwargs, sort_keys=True)` for the flat
string-keyed kwargs dict. -/
def json_dumps_sorted (kv : List (String × KwVal)) : String :=
  "\x7b" ++ String.intercalate ", "
      ((sortByKey kv).map (fun p => "\"" ++ jsonEscapeString p.1 ++ "\": " ++ p.2.jsonRender))
    ++ "\x7d"

/-- Result of the external `model.export(...)` call: a `Path`, a `str`, or
any other object (`_normalize_output_path` distinguishes exactly these). -/
inductive ExportedValue where
  | path (p : String)
  | str (s : String)
  | other
deriving DecidableEq, Repr

/-- The external Ultralytics backend, collapsed to one function: it receives
`str(model_path)`, the format value and the kwargs, and either returns the
`export` result or raises (modelled as `.error` with the exception text). -/
def Backend : Type := String → String → List (String × KwVal) → Except String ExportedValue

/-- `_normalize_output_path` (`yolo_ex/exporter.py`). -/
def _normalize_output_path (exported : ExportedValue) : Option String :=
  match exported with
  | .path p => some p
  | .str s => some s
  | .other => none

/-- `export_model` (`yolo_ex/exporter.py`). The `_ensure_tensorrt_module_compat`
step only mutates `sys.modules` and `_load_yolo_class` only resolves the
backend class; both are invisible in this pure model, where the backend is
already a function argument. -/
def export_model (backend : Backend) (r : ExportRequest) : Except ExportErr ExportResult :=
  match validate_request r with
  | .error msg => .error (.validation msg)
  | .ok () =>
    let export_kwargs := build_export_kwargs r
    if r.dry_run then
      .ok { format := r.format, input_model := r.model_path, output_path := none,
            backend := "ultralytics",
            details := [("dry_run", "true"), ("kwargs", json_dumps_sorted export_kwargs)] }
    else
      match backend r.model_path.asStr r.format.value export_kwargs with
      | .error exc => .error (.execution ("Ultralytics export failed: " ++ exc))
      | .ok exported =>
        .ok { format := r.format, input_model := r.model_path,
              output_path := _normalize_output_path exported,
              backend := "ultralytics",
              details := [("dry_run", "false"), ("kwargs", json_dumps_sorted export_kwargs)] }

/-- The process environment as observed by the checker code:
`importableModules m` is whether `importlib.import_module(m)` succeeds,
`importErrorMsg m` the `ImportError` text when it does not,
`distVersion d` the `importlib.metadata.version(d)` string (or `none` for
`PackageNotFoundError`), and `pep440Eq e i` the result of
`packaging.version.Version(e) == Version(i)` (`none` when `packaging` is
missing or a version fails to parse). -/
structure PyEnv where
  importableModules : String → Bool
  importErrorMsg : String → String
  distVersion : String → Option String
  pep440Eq : String → String → Option Bool

/-- Version pins from the top of `yolo_ex/platform_check.py`. -/
def ULTRALYTICS_VERSION : String := "8.4.14"

/-- Expected macOS torch baseline version. -/
def MACOS_TORCH_VERSION : String := "2.7.0"

/-- Expected macOS torchvision baseline version. -/
def MACOS_TORCHVISION_VERSION : String := "0.22.0"

/-- Expected macOS coremltools baseline version. -/
def MACOS_COREMLTOOLS_VERSION : String := "9.0"

/-- Expected Jetson torch baseline version. -/
def JETSON_TORCH_VERSION : String := "2.5.0a0+872d972e41.nv24.08"

/-- Expected Jetson torchvision baseline version. -/
def JETSON_TORCHVISION_VERSION : String := "0.20.0a0+afc54f7"

/-- Expected Jetson onnxruntime-gpu baseline version. -/
def JETSON_ONNXRUNTIME_GPU_VERSION : String := "1.23.0"

/-- Expected Jetson TensorRT pinned version. -/
def JETSON_TENSORRT_VERSION : String := "10.7.0"

/-- Status for a package version/import check
(`yolo_ex/platform_check.py`, `PackageCheckStatus`). -/
inductive PackageCheckStatus where
  | OK
  | MISSING
  | MISMATCH
  | SKIPPED
deriving DecidableEq, Repr

/-- The Python enum member `.name` string. -/
def PackageCheckStatus.pyName : PackageCheckStatus → String
  | .OK => "OK"
  | .MISSING => "MISSING"
  | .MISMATCH => "MISMATCH"
  | .SKIPPED => "SKIPPED"

/-- Result of checking one package requirement
(`yolo_ex/platform_check.py`, `PackageCheck`). -/
structure PackageCheck where
  label : String
  distribution : Option String
  import_name : Option String
  expected_version : Option String
  installed_version : Option String
  status : PackageCheckStatus
  message : String
deriving DecidableEq, Repr

/-- Complete setup validation result
(`yolo_ex/platform_check.py`, `PlatformCheckReport`). -/
structure PlatformCheckReport where
  platform_target : PlatformTarget
  platform_details : String
  supported : Bool
  checks : List PackageCheck := []
  warnings : List String := []
  ok : Bool := false
deriving DecidableEq, Repr

/-- `_versions_match` (`yolo_ex/platform_check.py`): string equality first,
then the `packaging` comparison, with `False` when `packaging` is missing or
a version string does not parse (both folded into `pep440Eq _ _ = none`). -/
def _versions_match (env : PyEnv) (expected_version installed_version : String) : Bool :=
  if installed_version = expected_version then true
  else
    match env.pep440Eq expected_version installed_version with
    | some b => b
    | none => false

/-- `_check_exact_version` (`yolo_ex/platform_check.py`). -/
def _check_exact_version (env : PyEnv) (label distribution expected_version : String) :
    PackageCheck :=
  match env.distVersion distribution with
  | none =>
      { label := label, distribution := some distribution, import_name := none,
        expected_version := some expected_version, installed_version := none,
        status := .MISSING, message := "distribution not installed" }
  | some installed =>
      if ! _versions_match env expected_version installed then
        { label := label, distribution := some distribution, import_name := none,
          expected_version := some expected_version, installed_version := some installed,
          status := .MISMATCH, message := "version mismatch" }
      else
        { label := label, distribution := some distribution, import_name := none,
          expected_version := some expected_version, installed_version := some installed,
          status := .OK, message := "" }

/-- `_check_jetson_tensorrt_distribution` (`yolo_ex/platform_check.py`). -/
def _check_jetson_tensorrt_distribution (env : PyEnv) : PackageCheck :=
  match env.distVersion "tensorrt" with
  | none =>
      { label := "TensorRT package", distribution := some "tensorrt", import_name := none,
        expected_version := some JETSON_TENSORRT_VERSION, installed_version := none,
        status := .MISSING, message := "distribution not installed" }
  | some installed =>
      if ! _versions_match env JETSON_TENSORRT_VERSION installed then
        { label := "TensorRT package", distribution := some "tensorrt", import_name := none,
          expected_version := some JETSON_TENSORRT_VERSION, installed_version := some installed,
          status := .MISMATCH, message := "version mismatch" }
      else
        { label := "TensorRT package", distribution := some "tensorrt", import_name := none,
          expected_version := some JETSON_TENSORRT_VERSION, installed_version := some installed,
          status := .OK, message := "" }

/-- `_check_presence_and_import` (`yolo_ex/platform_check.py`); the
coremltools warning-suppression wrapper of `_import_checked_module` has no
observable effect in this model. -/
def _check_presence_and_import (env : PyEnv) (label distribution imp : String) :
    PackageCheck :=
  match env.distVersion distribution with
  | none =>
      { label := label, distribution := some distribution, import_name := some imp,
        expected_version := none, installed_version := none,
        status := .MISSING, message := "distribution not installed" }
  | some installed =>
      if ! env.importableModules imp then
        { label := label, distribution := some distribution, import_name := some imp,
          expected_version := none, installed_version := some installed,
          status := .MISSING,
          message := "installed but import failed: " ++ env.importErrorMsg imp }
      else
        { label := label, distribution := some distribution, import_name := some imp,
          expected_version := none, installed_version := some installed,
          status := .OK, message := "" }

/-- `_check_presence_and_import_with_validated_version` (`yolo_ex/platform_check.py`). -/
def _check_presence_and_import_with_validated_version
    (env : PyEnv) (label distribution imp validated_version : String) : PackageCheck :=
  { _check_presence_and_import env label distribution imp with
      expected_version := some validated_version }

/-- `_check_import_only` (`yolo_ex/platform_check.py`). -/
def _check_import_only (env : PyEnv) (label imp : String) : PackageCheck :=
  if ! env.importableModules imp then
    { label := label, distribution := none, import_name := some imp,
      expected_version := none, installed_version := none,
      status := .MISSING, message := "import failed: " ++ env.importErrorMsg imp }
  else
    { label := label, distribution := none, import_name := some imp,
      expected_version := none, installed_version := none,
      status := .OK, message := "" }

/-- `check_current_platform` (`yolo_ex/platform_check.py`); `system` and
`machine` are the `platform.system()` / `platform.machine()` strings. -/
def check_current_platform (env : PyEnv) (system machine : String) : PlatformCheckReport :=
  let target := detect_platform system machine
  let details := system ++ " " ++ machine
  if target = .OTHER then
    { platform_target := target, platform_details := details, supported := false,
      warnings := ["Unsupported platform for yolo-ex exports. Supported targets are macOS and Linux arm64 (Jetson Orin Nano)."],
      ok := false }
  else
    let checks : List PackageCheck :=
      [_check_exact_version env "ultralytics" "ultralytics" ULTRALYTICS_VERSION] ++
      (if target = .MACOS then
        [_check_presence_and_import_with_validated_version env
           "torch" "torch" "torch" MACOS_TORCH_VERSION,
         _check_presence_and_import_with_validated_version env
           "torchvision" "torchvision" "torchvision" MACOS_TORCHVISION_VERSION,
         _check_presence_and_import_with_validated_version env
           "coremltools" "coremltools" "coremltools" MACOS_COREMLTOOLS_VERSION]
       else if target = .LINUX_ARM64 then
        [_check_presence_and_import_with_validated_version env
           "torch" "torch" "torch" JETSON_TORCH_VERSION,
         _check_presence_and_import_with_validated_version env
           "torchvision" "torchvision" "torchvision" JETSON_TORCHVISION_VERSION,
         _check_presence_and_import_with_validated_version env
           "onnxruntime" "onnxruntime-gpu" "onnxruntime" JETSON_ONNXRUNTIME_GPU_VERSION,
         _check_jetson_tensorrt_distribution env,
         _check_import_only env "TensorRT Python import" "tensorrt"]
       else [])
    let ok := checks.all (fun check => check.status = .OK)
    { platform_target := target, platform_details := details, supported := true,
      checks := checks, warnings := [], ok := ok }

/-- `_render_check_display_name` (`yolo_ex/platform_check.py`). -/
def _render_check_display_name (check : PackageCheck) : String :=
  match check.distribution, check.import_name with
  | some d, some i =>
      if check.label = i ∧ d ≠ check.label then
        check.label ++ " (dist: " ++ d ++ ")"
      else check.label
  | _, _ => check.label

/-- `_should_render_check` (`yolo_ex/platform_check.py`). -/
def _should_render_check (report : PlatformCheckReport) (check : PackageCheck) : Bool :=
  ! (report.platform_target = .LINUX_ARM64 ∧ check.label = "TensorRT Python import")

/-- `_get_hidden_jetson_tensorrt_import_check` (`yolo_ex/platform_check.py`). -/
def _get_hidden_jetson_tensorrt_import_check (report : PlatformCheckReport) :
    Option PackageCheck :=
  if report.platform_target ≠ .LINUX_ARM64 then none
  else report.checks.find? (fun check => check.label = "TensorRT Python import")

/-- `_status_label` (`yolo_ex/platform_check.py`). -/
def _status_label (report : PlatformCheckReport) : String :=
  if ! report.supported then "UNSUPPORTED"
  else if report.ok then "OK"
  else "FAILED"

/-- The fixed Jetson remediation tip appended by `render_platform_report`. -/
def jetsonTip : String :=
  "Jetson tip: prefer JetPack/system Python packages, then create the project venv with `uv venv --python /usr/bin/python3 --system-site-packages` and run `uv sync`."

/-- The body of the per-check loop of `render_platform_report`: one rendered
line for a check, with the hidden Jetson TensorRT import failure folded into
the \x22TensorRT package\x22 row. -/
def _render_check_line (hidden : Option PackageCheck) (check : PackageCheck) : String :=
  let expected :=
    match check.expected_version with
    | some e => " expected=" ++ e
    | none => ""
  let installed :=
    match check.installed_version with
    | some i => " installed=" ++ i
    | none => ""
  let message :=
    match hidden with
    | some h =>
        if check.label = "TensorRT package" ∧ h.status ≠ .OK then
          let import_message := if h.message = "" then "import check failed" else h.message
          if check.message ≠ "" then
            check.message ++ "; " ++ import_message
          else import_message
        else check.message
    | none => check.message
  let suffix := if message ≠ "" then " - " ++ message else ""
  "[" ++ check.status.pyName ++ "] " ++ _render_check_display_name check
    ++ expected ++ installed ++ suffix

/-- `render_platform_report` (`yolo_ex/platform_check.py`): the imperative
line-appending loops become left folds over the checks and warnings. -/
def render_platform_report (report : PlatformCheckReport) : String :=
  let lines : List String :=
    ["Platform check: " ++ report.platform_target.value ++ " (" ++ report.platform_details ++ ")",
     "Status: " ++ _status_label report]
  let hidden := _get_hidden_jetson_tensorrt_import_check report
  let lines := report.checks.foldl
    (fun acc check =>
      if _should_render_check report check then acc ++ [_render_check_line hidden check]
      else acc)
    lines
  let lines := report.warnings.foldl (fun acc w => acc ++ ["warning: " ++ w]) lines
  let lines :=
    if report.platform_target = .LINUX_ARM64 ∧ report.ok = false then
      lines ++ [jetsonTip]
    else lines
  String.intercalate "\n" lines

/-- `_require_module` (`yolo_ex/platforms.py`): raises a validation error
with the remediation message when the module cannot be imported. -/
def _require_module (env : PyEnv) (module_name message : String) : Except String Unit :=
  if env.importableModules module_name then .ok () else .error message

/-- Preflight result (`yolo_ex/platforms.py`, `PreflightResult`). -/
structure PreflightResult where
  target : PlatformTarget
  warnings : List String := []
deriving DecidableEq, Repr

/-- `preflight_for_format` (`yolo_ex/platforms.py`); `system`/`machine` are
the strings `detect_platform` reads in the source. The error is the
`ExportValidationError` message. -/
def preflight_for_format (env : PyEnv) (system machine : String)
    (export_format : ExportFormat) : Except String PreflightResult :=
  let target := detect_platform system machine
  match export_format with
  | .COREML =>
    let warnings :=
      if target ≠ .MACOS then
        ["CoreML export is intended for macOS. Continuing, but export may fail on this platform."]
      else []
    match _require_module env "coremltools"
        "CoreML export requires `coremltools`. Install on macOS with `uv sync --group mac`." with
    | .error m => .error m
    | .ok () => .ok { target := target, warnings := warnings }
  | .ENGINE =>
    let warnings :=
      if target ≠ .LINUX_ARM64 then
        ["TensorRT export is intended for Jetson Orin Nano (Linux arm64). Continuing, but export may fail on this platform."]
      else []
    match _require_module env "tensorrt"
        "TensorRT export requires the Jetson TensorRT Python package (`tensorrt`) and a compatible JetPack/TensorRT runtime. If JetPack provides system Python packages, create the project venv with `uv venv --python /usr/bin/python3 --system-site-packages` before `uv sync`." with
    | .error m => .error m
    | .ok () =>
      if target = .LINUX_ARM64 then
        match _require_module env "torch"
            "TensorRT export on Jetson requires `torch`. If JetPack provides system Python packages, create the project venv with `uv venv --python /usr/bin/python3 --system-site-packages` before `uv sync`." with
        | .error m => .error m
        | .ok () =>
          match _require_module env "torchvision"
              "TensorRT export on Jetson requires `torchvision`. If JetPack provides system Python packages, create the project venv with `uv venv --python /usr/bin/python3 --system-site-packages` before `uv sync`." with
          | .error m => .error m
          | .ok () =>
            match _require_module env "onnxruntime"
                "TensorRT export on Jetson requires `onnxruntime`. If JetPack provides system Python packages, create the project venv with `uv venv --python /usr/bin/python3 --system-site-packages` before `uv sync`." with
            | .error m => .error m
            | .ok () => .ok { target := target, warnings := warnings }
      else
        .ok { target := target, warnings := warnings }

/-- The `main` of `yolo_ex/cli.py`, reduced to its exit code: the `try` block
runs the preflight (which can only raise a validation error) and then
`export_model`; `ExportValidationError` maps to 2, `ExportExecutionError`
to 1, success to 0. -/
def cli_main (env : PyEnv) (backend : Backend) (system machine : String)
    (r : ExportRequest) : Nat :=
  match preflight_for_format env system machine r.format with
  | .error _ => 2
  | .ok _ =>
    match export_model backend r with
    | .error (.validation _) => 2
    | .error (.execution _) => 1
    | .ok _ => 0

/-- The `main` of `yolo_ex/platform_cli.py`, reduced to its exit code. -/
def platform_cli_main (env : PyEnv) (system machine : String) : Nat :=
  let report := check_current_platform env system machine
  if ! report.supported then 2
  else if report.ok then 0 else 1

/-! Spec-side definitions, written from the specification's words, to be
compared with the embedded source functions (refinement claims). -/

/-- One validation rule of the spec's rule list: when it is violated and the
message it raises. -/
structure ValidationRule where
  violated : ExportRequest → Bool
  message : ExportRequest → String

/-- The spec's validation rule list, in the spec's order: file existence,
`.pt` suffix, positive image size, positive batch (when set), positive
workspace (when set), workspace disallowed for CoreML. -/
def spec_validation_rules : List ValidationRule :=
  [⟨fun r => !r.model_path.pathExists,
    fun r => "Model file not found: " ++ r.model_path.asStr⟩,
   ⟨fun r => pyLower r.model_path.suffix != ".pt",
    fun _ => "Input model must use the .pt extension."⟩,
   ⟨fun r => decide (r.imgsz ≤ 0),
    fun _ => "--imgsz must be greater than zero."⟩,
   ⟨fun r => match r.batch with | some b => decide (b ≤ 0) | none => false,
    fun _ => "--batch must be greater than zero."⟩,
   ⟨fun r => match r.workspace with | some w => decide (w ≤ 0) | none => false,
    fun _ => "--workspace must be greater than zero."⟩,
   ⟨fun r => decide (r.format = ExportFormat.COREML ∧ r.workspace.isSome),
    fun _ => "--workspace is only valid with --format engine."⟩]

/-- Apply a rule list in order: the first violated rule raises its message
and no later rule is applied; if none is violated, validation passes. -/
def first_violation : List ValidationRule → ExportRequest → Except String Unit
  | [], _ => .ok ()
  | rule :: rest, r =>
    if rule.violated r then .error (rule.message r) else first_violation rest r

/-- A check row as the claim words it: a status tag, a displayed name, then
`expected=`/`installed=` parts when present and ` - message` when the (possibly
folded) message is nonempty. -/
def spec_check_row (name folded_message : String) (check : PackageCheck) : String :=
  "[" ++ check.status.pyName ++ "] " ++ name
    ++ (match check.expected_version with | some e => " expected=" ++ e | none => "")
    ++ (match check.installed_version with | some i => " installed=" ++ i | none => "")
    ++ (if folded_message ≠ "" then " - " ++ folded_message else "")

/-- The claim's message folding: when the suppressed Jetson TensorRT import
check is not OK, its failure message is folded into the \x22TensorRT package\x22
row's message. -/
def spec_folded_message (hidden : Option PackageCheck) (check : PackageCheck) : String :=
  match hidden with
  | some h =>
      if check.label = "TensorRT package" ∧ h.status ≠ .OK then
        let import_message := if h.message = "" then "import check failed" else h.message
        if check.message ≠ "" then check.message ++ "; " ++ import_message
        else import_message
      else check.message
  | none => check.message

/-- The report rendering as the claim describes it, parameterized by how a
check's displayed name is derived: header lines, then one row per check that
is not suppressed (the \x22TensorRT Python import\x22 row is suppressed on
Linux-arm64, and when not OK its message is folded into the \x22TensorRT
package\x22 row), then the warning lines, then the fixed Jetson remediation tip
exactly when the target is Linux-arm64 and the report is not ok. -/
def spec_render_generic (nameOf : PackageCheck → String)
    (report : PlatformCheckReport) : String :=
  let hidden : Option PackageCheck :=
    if report.platform_target = .LINUX_ARM64 then
      report.checks.find? (fun check => check.label = "TensorRT Python import")
    else none
  String.intercalate "\n"
    (["Platform check: " ++ report.platform_target.value
        ++ " (" ++ report.platform_details ++ ")",
      "Status: " ++ _status_label report]
     ++ ((report.checks.filter (fun check =>
            !(report.platform_target = .LINUX_ARM64
              ∧ check.label = "TensorRT Python import"))).map
          (fun check => spec_check_row (nameOf check) (spec_folded_message hidden check) check))
     ++ report.warnings.map (fun w => "warning: " ++ w)
     ++ (if report.platform_target = .LINUX_ARM64 ∧ report.ok = false then [jetsonTip]
         else []))

/-- The rendering as the claim literally states it: each row shows the
check's `label`. -/
def spec_render_rows_by_label (report : PlatformCheckReport) : String :=
  spec_render_generic (fun check => check.label) report

/-- The rendering as amended: each row shows the check's display name, which
is the label extended with the distribution alias when the label equals
the import name but differs from the distribution. -/
def spec_render_rows_by_display_name (report : PlatformCheckReport) : String :=
  spec_render_generic _render_check_display_name report

/-- The spec's notion of an environment whose installed-version table matches
the expected table for the detected target: every version-pinned distribution
is installed at its expected version, the baseline-displayed distributions
are installed at their baseline versions, and installed packages are
importable. -/
def env_matches_expected (env : PyEnv) (target : PlatformTarget) : Prop :=
  env.distVersion "ultralytics" = some ULTRALYTICS_VERSION ∧
  (∀ m, env.importableModules m = true) ∧
  (target = .MACOS →
     env.distVersion "torch" = some MACOS_TORCH_VERSION ∧
     env.distVersion "torchvision" = some MACOS_TORCHVISION_VERSION ∧
     env.distVersion "coremltools" = some MACOS_COREMLTOOLS_VERSION) ∧
  (target = .LINUX_ARM64 →
     env.distVersion "torch" = some JETSON_TORCH_VERSION ∧
     env.distVersion "torchvision" = some JETSON_TORCHVISION_VERSION ∧
     env.distVersion "onnxruntime-gpu" = some JETSON_ONNXRUNTIME_GPU_VERSION ∧
     env.distVersion "tensorrt" = some JETSON_TENSORRT_VERSION)

/-! Concrete values used by witnesses and counterexamples. -/

/-- A backend whose export call succeeds with a non-path result. -/
def dummyBackend : Backend := fun _ _ _ => .ok .other

/-- An existing `.pt` model path. -/
def goodPath : PyPath :=
  { pathExists := true, suffix := ".pt", stem := "model", asStr := "model.pt" }

/-- A `.pt` model path that does not exist on disk. -/
def missingPath : PyPath :=
  { pathExists := false, suffix := ".pt", stem := "model", asStr := "missing/model.pt" }

/-- A CoreML dry-run request on an existing model. -/
def rDry : ExportRequest := { model_path := goodPath, format := .COREML, dry_run := true }

/-- A plain engine request on an existing model. -/
def rPlain : ExportRequest := { model_path := goodPath, format := .ENGINE }

/-- An engine request whose model file does not exist. -/
def rNotFound : ExportRequest := { model_path := missingPath, format := .ENGINE }

/-- A CoreML request with a (positive) workspace set. -/
def rCoremlWorkspace : ExportRequest :=
  { model_path := goodPath, format := .COREML, workspace := some 2 }

/-- A concrete output directory. -/
def outDir : PyPath := { pathExists := true, suffix := "", stem := "out", asStr := "out" }

/-- An engine request with every optional field set. -/
def rEngineFull : ExportRequest :=
  { model_path := goodPath, format := .ENGINE, output_dir := some outDir,
    device := some "0", batch := some 4, workspace := some (3/2 : ℚ) }

/-- The result `export_model` produces for `rPlain` with `dummyBackend`. -/
def resPlain : ExportResult :=
  { format := .ENGINE, input_model := goodPath, output_path := none,
    backend := "ultralytics",
    details := [("dry_run", "false"), ("kwargs", json_dumps_sorted (build_export_kwargs rPlain))] }

/-- An environment with no importable modules and no installed distributions. -/
def envNone : PyEnv :=
  { importableModules := fun _ => false,
    importErrorMsg := fun m => "No module named " ++ m,
    distVersion := fun _ => none,
    pep440Eq := fun _ _ => none }

/-- An environment holding exactly the expected macOS package versions, with
every module importable. -/
def envMacGood : PyEnv :=
  { importableModules := fun _ => true,
    importErrorMsg := fun _ => "",
    distVersion := fun d =>
      if d = "ultralytics" then some "8.4.14"
      else if d = "torch" then some "2.7.0"
      else if d = "torchvision" then some "0.22.0"
      else if d = "coremltools" then some "9.0"
      else none,
    pep440Eq := fun _ _ => none }

/-- A Linux-arm64 report holding only the onnxruntime-style check, whose
displayed name carries the distribution alias. -/
def c7_report : PlatformCheckReport :=
  { platform_target := .LINUX_ARM64, platform_details := "Linux aarch64",
    supported := true,
    checks := [{ label := "onnxruntime", distribution := some "onnxruntime-gpu",
                 import_name := some "onnxruntime", expected_version := some "1.23.0",
                 installed_version := some "1.23.0", status := .OK, message := "" }],
    warnings := [], ok := true }

/-! Helper lemmas shared across the development. -/

/-- String concatenation is associative. -/
theorem str_append_assoc (a b c : String) : a ++ b ++ c = a ++ (b ++ c) := by
  apply String.ext
  simp [String.data_append, List.append_assoc]

/-- The not-found error message decomposes around its `not found` core. -/
theorem not_found_split (s : String) :
    ("Model file " : String) ++ "not found" ++ (": " ++ s) = "Model file not found: " ++ s := by
  rw [str_append_assoc "Model file " "not found" (": " ++ s)]
  rw [← str_append_assoc "not found" ": " s]
  rw [← str_append_assoc "Model file " ("not found" ++ ": ") s]
  rfl

/-- A left fold that conditionally appends single elements is the filtered map. -/
theorem foldl_append_filter {α β : Type} (l : List α) (p : α → Bool) (f : α → β) (acc : List β) :
    l.foldl (fun a x => if p x then a ++ [f x] else a) acc = acc ++ (l.filter p).map f := by
  induction l generalizing acc with
  | nil => simp
  | cons x xs ih => by_cases h : p x <;> simp [List.filter_cons, h, ih]

/-- A left fold that appends single elements is the map. -/
theorem foldl_append_all {α β : Type} (l : List α) (f : α → β) (acc : List β) :
    l.foldl (fun a x => a ++ [f x]) acc = acc ++ l.map f := by
  induction l generalizing acc with
  | nil => simp
  | cons x xs ih => simp [ih]

/-- The source's per-check render line is the spec-shaped row applied to the
display name and the folded message. -/
theorem render_line_eq_spec_row (hidden : Option PackageCheck) :
    _render_check_line hidden = fun check =>
      spec_check_row (_render_check_display_name check) (spec_folded_message hidden check) check := by
  funext check; rfl

/-- The report's `ok` flag holds exactly on a supported platform with every
check OK (the unsupported branch fixes `ok := false` over an empty list). -/
theorem report_ok_iff_all (env : PyEnv) (system machine : String) :
    (check_current_platform env system machine).ok = true ↔
      ((check_current_platform env system machine).supported = true ∧
       ∀ c ∈ (check_current_platform env system machine).checks, c.status = .OK) := by
  cases h : detect_platform system machine <;>
    simp [check_current_platform, h, List.all_eq_true]

/-! Claim theorems. -/

/-- C1 (counterexample): the pair system=\x22Darwin\x22, machine=\x22x86_64\x22 is
neither of the two combinations the claim enumerates, yet the platform
detector does not return the \x22other\x22 target for it (it returns macOS). -/
theorem detect_platform_c1_counterexample :
    (("Darwin" : String), ("x86_64" : String)) ≠ ("Darwin", "arm64") ∧
    (("Darwin" : String), ("x86_64" : String)) ≠ ("Linux", "aarch64") ∧
    detect_platform "Darwin" "x86_64" ≠ .OTHER := by decide

/-- C1 (amended): the platform detector lowercases both strings and returns
the macOS target whenever the OS name is \x22darwin\x22 (for any machine), the
Linux-arm64 target when the OS name is \x22linux\x22 and the machine is
\x22aarch64\x22 or \x22arm64\x22, and the \x22other\x22 target for every remaining
combination; in particular Darwin/arm64 yields macOS and Linux/aarch64
yields Linux-arm64. -/
theorem detect_platform_characterization (system machine : String) :
    (pyLower system = "darwin" → detect_platform system machine = .MACOS) ∧
    (pyLower system = "linux" ∧ (pyLower machine = "aarch64" ∨ pyLower machine = "arm64") →
      detect_platform system machine = .LINUX_ARM64) ∧
    ((pyLower system ≠ "darwin" ∧
      ¬(pyLower system = "linux" ∧ (pyLower machine = "aarch64" ∨ pyLower machine = "arm64"))) →
      detect_platform system machine = .OTHER) ∧
    detect_platform "Darwin" "arm64" = .MACOS ∧
    detect_platform "Linux" "aarch64" = .LINUX_ARM64 := by
  refine ⟨fun h => ?_, fun h => ?_, fun h => ?_, by decide, by decide⟩ <;>
    · unfold detect_platform
      simp_all

/-- C1 witness: the amended characterization applied to a concrete
unsupported combination. -/
theorem detect_platform_characterization_witness :
    detect_platform "Windows" "AMD64" = .OTHER :=
  (detect_platform_characterization "Windows" "AMD64").2.2.1 (by decide)

/-- C2: `validate_request` applies the spec's rules in their fixed order
(file existence, `.pt` suffix, positive image size, positive batch when set,
positive workspace when set, workspace disallowed for CoreML), raising the
first violated rule's message and none after it; and whenever the model path
does not exist, the resulting error message contains \x22not found\x22. -/
theorem validate_request_rule_order (r : ExportRequest) :
    validate_request r = first_violation spec_validation_rules r ∧
    (r.model_path.pathExists = false →
      ∃ pre post, validate_request r = .error (pre ++ "not found" ++ post)) := by
  constructor
  · simp only [validate_request, first_violation, spec_validation_rules, decide_eq_true_eq]
  · intro hne
    refine ⟨"Model file ", ": " ++ r.model_path.asStr, ?_⟩
    have hv : validate_request r = .error ("Model file not found: " ++ r.model_path.asStr) := by
      simp [validate_request, hne]
    rw [hv, not_found_split]

/-- C2 witness: the rule-order theorem applied to a request whose model
file does not exist. -/
theorem validate_request_rule_order_witness :
    validate_request rNotFound = first_violation spec_validation_rules rNotFound ∧
    (∃ pre post, validate_request rNotFound = .error (pre ++ "not found" ++ post)) :=
  ⟨(validate_request_rule_order rNotFound).1, (validate_request_rule_order rNotFound).2 rfl⟩

/-- C3: the built kwargs map contains the device, batch and workspace keys
exactly when the format is engine and the corresponding optional field is
set; for CoreML it never contains them; and a given output directory
produces a `project` entry with the directory and a `name` entry with the
input file's stem. -/
theorem build_export_kwargs_format_keys (r : ExportRequest) :
    (("device" ∈ (build_export_kwargs r).map Prod.fst) ↔
      (r.format = .ENGINE ∧ r.device.isSome)) ∧
    (("batch" ∈ (build_export_kwargs r).map Prod.fst) ↔
      (r.format = .ENGINE ∧ r.batch.isSome)) ∧
    (("workspace" ∈ (build_export_kwargs r).map Prod.fst) ↔
      (r.format = .ENGINE ∧ r.workspace.isSome)) ∧
    (r.format = .COREML →
       "device" ∉ (build_export_kwargs r).map Prod.fst ∧
       "batch" ∉ (build_export_kwargs r).map Prod.fst ∧
       "workspace" ∉ (build_export_kwargs r).map Prod.fst) ∧
    (∀ d, r.output_dir = some d →
       ("project", KwVal.str d.asStr) ∈ build_export_kwargs r ∧
       ("name", KwVal.str r.model_path.stem) ∈ build_export_kwargs r) := by
  obtain ⟨p, fmt, od, imgsz, dev, half, int8, batch, ws, nms, verb, dry⟩ := r
  cases fmt <;> cases od <;> cases dev <;> cases batch <;> cases ws <;>
    simp [build_export_kwargs]

/-- C3 witness: the kwargs theorem applied to an engine request with an
output directory. -/
theorem build_export_kwargs_format_keys_witness :
    ("project", KwVal.str outDir.asStr) ∈ build_export_kwargs rEngineFull ∧
    ("name", KwVal.str rEngineFull.model_path.stem) ∈ build_export_kwargs rEngineFull :=
  (build_export_kwargs_format_keys rEngineFull).2.2.2.2 outDir rfl

/-- C4: for a validated dry-run request, `export_model` returns the dry-run
result (detail map with `dry_run = "true"` and the serialized would-be
kwargs, no output path) and its value does not depend on the backend at all:
the external backend is never invoked. -/
theorem export_model_dry_run_short_circuit (b : Backend) (r : ExportRequest)
    (hval : validate_request r = .ok ()) (hdry : r.dry_run = true) :
    export_model b r = .ok { format := r.format, input_model := r.model_path,
                             output_path := none, backend := "ultralytics",
                             details := [("dry_run", "true"),
                                         ("kwargs", json_dumps_sorted (build_export_kwargs r))] } ∧
    ∀ b2 : Backend, export_model b r = export_model b2 r := by
  constructor
  · simp [export_model, hval, hdry]
  · intro b2; simp [export_model, hval, hdry]

/-- C4 witness: the dry-run theorem applied to a concrete dry-run request. -/
theorem export_model_dry_run_short_circuit_witness :
    export_model dummyBackend rDry =
      .ok { format := rDry.format, input_model := rDry.model_path,
            output_path := none, backend := "ultralytics",
            details := [("dry_run", "true"),
                        ("kwargs", json_dumps_sorted (build_export_kwargs rDry))] } :=
  (export_model_dry_run_short_circuit dummyBackend rDry rfl rfl).1

/-- C5: the export CLI exits 0 when preflight and export succeed, 2 when a
validation error is raised (by preflight or by request validation), and 1
when an execution error is raised; the platform-check CLI exits 2 when the
platform is unsupported, 0 when the report is fully OK, and 1 when the
platform is supported but some check failed. -/
theorem cli_exit_codes :
    (∀ (env : PyEnv) (b : Backend) (system machine : String) (r : ExportRequest)
       (pf : PreflightResult) (res : ExportResult),
       preflight_for_format env system machine r.format = .ok pf →
       export_model b r = .ok res →
       cli_main env b system machine r = 0) ∧
    (∀ (env : PyEnv) (b : Backend) (system machine : String) (r : ExportRequest) (msg : String),
       (preflight_for_format env system machine r.format = .error msg ∨
        export_model b r = .error (.validation msg)) →
       cli_main env b system machine r = 2) ∧
    (∀ (env : PyEnv) (b : Backend) (system machine : String) (r : ExportRequest)
       (pf : PreflightResult) (msg : String),
       preflight_for_format env system machine r.format = .ok pf →
       export_model b r = .error (.execution msg) →
       cli_main env b system machine r = 1) ∧
    (∀ (env : PyEnv) (system machine : String),
       (check_current_platform env system machine).supported = false →
       platform_cli_main env system machine = 2) ∧
    (∀ (env : PyEnv) (system machine : String),
       (check_current_platform env system machine).supported = true →
       (check_current_platform env system machine).ok = true →
       platform_cli_main env system machine = 0) ∧
    (∀ (env : PyEnv) (system machine : String),
       (check_current_platform env system machine).supported = true →
       (check_current_platform env system machine).ok = false →
       platform_cli_main env system machine = 1) := by
  refine ⟨?_, ?_, ?_, ?_, ?_, ?_⟩
  · intro env b system machine r pf res h1 h2; simp [cli_main, h1, h2]
  · rintro env b system machine r msg (h | h)
    · simp [cli_main, h]
    · cases hp : preflight_for_format env system machine r.format <;>
        simp [cli_main, hp, h]
  · intro env b system machine r pf msg h1 h2; simp [cli_main, h1, h2]
  · intro env system machine h; simp [platform_cli_main, h]
  · intro env system machine h1 h2; simp [platform_cli_main, h1, h2]
  · intro env system machine h1 h2; simp [platform_cli_main, h1, h2]

/-- C5 witness: a successful dry-run export exits 0 and an unsupported
platform check exits 2. -/
theorem cli_exit_codes_witness :
    cli_main envMacGood dummyBackend "Darwin" "arm64" rDry = 0 ∧
    platform_cli_main envNone "Windows" "AMD64" = 2 :=
  ⟨cli_exit_codes.1 envMacGood dummyBackend "Darwin" "arm64" rDry ⟨.MACOS, []⟩ _ rfl rfl,
   cli_exit_codes.2.2.2.1 envNone "Windows" "AMD64" rfl⟩

/-- C6: on a supported platform the report's `ok` flag holds exactly when
every individual package check has status OK; an environment whose
installed-version table matches the expected table (and whose installed
packages import) yields an OK report; and any MISSING or MISMATCH entry
forces `ok = false`. -/
theorem platform_check_ok_conjunction (env : PyEnv) (system machine : String) :
    ((check_current_platform env system machine).supported = true →
      ((check_current_platform env system machine).ok = true ↔
        ∀ c ∈ (check_current_platform env system machine).checks, c.status = .OK)) ∧
    (env_matches_expected env (detect_platform system machine) →
      (check_current_platform env system machine).supported = true →
      (check_current_platform env system machine).ok = true) ∧
    (∀ c ∈ (check_current_platform env system machine).checks,
      (c.status = .MISSING ∨ c.status = .MISMATCH) →
      (check_current_platform env system machine).ok = false) := by
  refine ⟨?_, ?_, ?_⟩
  · intro hsupp
    rw [report_ok_iff_all]
    exact ⟨fun h => h.2, fun h => ⟨hsupp, h⟩⟩
  · rintro ⟨h1, h2, h3, h4⟩ hsupp
    cases h : detect_platform system machine with
    | OTHER => simp [check_current_platform, h] at hsupp
    | MACOS =>
      rw [h] at h3
      obtain ⟨ht, htv, hc⟩ := h3 rfl
      simp [check_current_platform, h, _check_exact_version,
        _check_presence_and_import_with_validated_version, _check_presence_and_import,
        _versions_match, h1, h2, ht, htv, hc]
    | LINUX_ARM64 =>
      rw [h] at h4
      obtain ⟨ht, htv, ho, htr⟩ := h4 rfl
      simp [check_current_platform, h, _check_exact_version,
        _check_presence_and_import_with_validated_version, _check_presence_and_import,
        _check_jetson_tensorrt_distribution, _check_import_only,
        _versions_match, h1, h2, ht, htv, ho, htr]
  · intro c hc hst
    by_contra hok
    rw [Bool.not_eq_false] at hok
    have hall := (report_ok_iff_all env system machine).mp hok
    have hcok := hall.2 c hc
    rcases hst with h | h <;> rw [hcok] at h <;> simp at h

/-- C6 witness: an environment holding exactly the expected macOS versions
produces an OK report. -/
theorem platform_check_ok_conjunction_witness :
    (check_current_platform envMacGood "Darwin" "arm64").ok = true :=
  (platform_check_ok_conjunction envMacGood "Darwin" "arm64").2.1
    ⟨rfl, fun _ => rfl, fun _ => ⟨rfl, rfl, rfl⟩, fun hc => absurd hc (by decide)⟩ rfl

/-- C7 (counterexample): a Linux-arm64 report whose only check is the
onnxruntime entry (label `onnxruntime`, distribution `onnxruntime-gpu`
and import name `onnxruntime`) renders the row with the distribution alias
after the label, so the rendered text differs from the claim's
`[STATUS] label expected=... installed=...` row format. -/
theorem render_report_row_label_counterexample :
    render_platform_report c7_report =
      "Platform check: linux_arm64 (Linux aarch64)\nStatus: OK\n[OK] onnxruntime (dist: onnxruntime-gpu) expected=1.23.0 installed=1.23.0" ∧
    spec_render_rows_by_label c7_report =
      "Platform check: linux_arm64 (Linux aarch64)\nStatus: OK\n[OK] onnxruntime expected=1.23.0 installed=1.23.0" ∧
    render_platform_report c7_report ≠ spec_render_rows_by_label c7_report := by decide

/-- C7 (amended): the rendered report formats each displayed check row as
`[STATUS] name expected=... installed=... - message` (omitting absent
parts), where `name` is the check's label extended with the distribution
alias when the label equals the import name but differs from the
distribution; it appends each warning line, appends the fixed Jetson
remediation tip exactly when the target is Linux-arm64 and the report is
not ok, suppresses the TensorRT Python import row on Linux-arm64, and folds
that suppressed check's failure message into the TensorRT package row. -/
theorem render_report_matches_amended_spec (report : PlatformCheckReport) :
    render_platform_report report = spec_render_rows_by_display_name report := by
  simp only [render_platform_report, spec_render_rows_by_display_name, spec_render_generic,
    _get_hidden_jetson_tensorrt_import_check]
  rw [foldl_append_filter, foldl_append_all]
  by_cases h : report.platform_target = .LINUX_ARM64
  · have hsr : _should_render_check report =
        fun check => !decide (check.label = "TensorRT Python import") := by
      funext check; simp [_should_render_check, h]
    by_cases hok : report.ok = false <;>
      simp [h, hok, render_line_eq_spec_row, hsr, List.append_assoc]
  · have hsr : _should_render_check report = fun _ => true := by
      funext check; simp [_should_render_check, h]
    simp [h, render_line_eq_spec_row, hsr, List.append_assoc]

/-- C8: a CoreML request with an existing `.pt` model, positive image size
and positive batch, whose workspace field is set, fails validation with an
error message mentioning \x22workspace\x22. -/
theorem coreml_workspace_validation_error (r : ExportRequest) (hfmt : r.format = .COREML)
    (hex : r.model_path.pathExists = true) (hsuf : pyLower r.model_path.suffix = ".pt")
    (himg : 0 < r.imgsz) (hb : ∀ b, r.batch = some b → 0 < b)
    (w : ℚ) (hw : r.workspace = some w) :
    ∃ pre post, validate_request r = .error (pre ++ "workspace" ++ post) := by
  have hbatch : (match r.batch with | some b => decide (b ≤ 0) | none => false) = false := by
    cases hb' : r.batch with
    | none => rfl
    | some b => simp [not_le.mpr (hb b hb')]
  by_cases hw0 : w ≤ 0
  · refine ⟨"--", " must be greater than zero.", ?_⟩
    simp [validate_request, hex, hsuf, not_le.mpr himg, hbatch, hw, hw0]
  · refine ⟨"--", " is only valid with --format engine.", ?_⟩
    simp [validate_request, hex, hsuf, not_le.mpr himg, hbatch, hw, hw0, hfmt]

/-- C8 witness: the CoreML-workspace theorem applied to a concrete request. -/
theorem coreml_workspace_validation_error_witness :
    ∃ pre post, validate_request rCoremlWorkspace = .error (pre ++ "workspace" ++ post) :=
  coreml_workspace_validation_error rCoremlWorkspace rfl rfl rfl (by decide)
    (fun b hb => Option.noConfusion hb) 2 rfl

/-- C9: an OK report implies a supported platform with a nonempty check
list; and when the detected platform is \x22other\x22 the report has
`supported = false`, `ok = false` and an empty checks list (no package
check is performed). -/
theorem platform_report_supported_invariant (env : PyEnv) (system machine : String) :
    ((check_current_platform env system machine).ok = true →
      (check_current_platform env system machine).supported = true ∧
      (check_current_platform env system machine).checks ≠ []) ∧
    (detect_platform system machine = .OTHER →
      (check_current_platform env system machine).supported = false ∧
      (check_current_platform env system machine).ok = false ∧
      (check_current_platform env system machine).checks = []) := by
  cases h : detect_platform system machine <;>
    simp [check_current_platform, h]

/-- C9 witness: the invariant applied to a concrete unsupported platform. -/
theorem platform_report_supported_invariant_witness :
    (check_current_platform envNone "Windows" "AMD64").supported = false ∧
    (check_current_platform envNone "Windows" "AMD64").ok = false ∧
    (check_current_platform envNone "Windows" "AMD64").checks = [] :=
  (platform_report_supported_invariant envNone "Windows" "AMD64").2 (by decide)

/-- C10: every result `export_model` returns has backend \x22ultralytics\x22 and
a detail map holding exactly the `dry_run` key (\x22true\x22 exactly when the
request's dry-run flag is set) and the `kwargs` key (the sorted-key JSON
serialization of the kwargs built from the request). -/
theorem export_model_result_backend_details (b : Backend) (r : ExportRequest)
    (res : ExportResult) (h : export_model b r = .ok res) :
    res.backend = "ultralytics" ∧
    res.details = [("dry_run", if r.dry_run then "true" else "false"),
                   ("kwargs", json_dumps_sorted (build_export_kwargs r))] := by
  unfold export_model at h
  cases hv : validate_request r with
  | error m => rw [hv] at h; simp at h
  | ok u =>
    cases u
    rw [hv] at h
    by_cases hd : r.dry_run
    · simp [hd] at h
      rw [← h]
      simp [hd]
    · simp [hd] at h
      cases hb : b r.model_path.asStr r.format.value (build_export_kwargs r) with
      | error e => rw [hb] at h; simp at h
      | ok ex => rw [hb] at h; simp at h; rw [← h]; simp [hd]

/-- C10 witness: the result-shape theorem applied to a concrete non-dry-run
export. -/
theorem export_model_result_backend_details_witness :
    resPlain.backend = "ultralytics" ∧
    resPlain.details = [("dry_run", if rPlain.dry_run then "true" else "false"),
                        ("kwargs", json_dumps_sorted (build_export_kwargs rPlain))] :=
  export_model_result_backend_details dummyBackend rPlain resPlain rfl
